import Mathlib

/-!
Verification of the furniture viewer's door/drawer interaction logic
(src/main.js of the 3d-denemeler repository).

The embedding models, directly from the source:
  * the travel-distance computations `getSlidingAmount` / `getDrawerPullAmount`
    (bounding-box extents measured by Box3.setFromObject, which are
    translation-invariant: the gsap animations only set position.x / position.z);
  * the absolute open/close target coordinates computed by
    `proceedToggleDoor` / `proceedToggleDrawer`;
  * the load-time discovery traversal (model.traverse callback) that registers
    door and drawer panels keyed by parent-group name;
  * a discrete-event semantics of `toggleDoor` / `toggleDrawer` /
    `toggleAllDoors` / `toggleAllDrawers`, with gsap animation completions and
    setTimeout continuations as timed events (times in milliseconds: gsap
    durations 1.2 s and 0.8 s, setTimeout delays 800 ms and 900 ms); a panel's
    boolean open state flips exactly at its animation's onComplete, and a
    panel's position reaches an animation's target exactly at that animation's
    end event (the gsap easings used are monotone);
  * the pointer handlers `onMouseMove` / `onClick`, over an abstract list of
    scene objects under the pointer sorted near-to-far (the raycaster's
    intersection list restricted to the queried subtree set).
-/

namespace FurnitureViewer

/-- A scene object as measured by THREE.Box3.setFromObject: a world-space
position (only x and z are ever animated) plus the geometry's own axis-aligned
bounds relative to that position. -/
structure SceneObject where
  posX : ℚ
  posZ : ℚ
  geomMinX : ℚ
  geomMaxX : ℚ
  geomMinZ : ℚ
  geomMaxZ : ℚ
deriving DecidableEq

/-- Bounding-box extent along X returned by bbox.getSize: max minus min. -/
def bboxSizeX (o : SceneObject) : ℚ := (o.posX + o.geomMaxX) - (o.posX + o.geomMinX)

/-- Bounding-box extent along Z returned by bbox.getSize. -/
def bboxSizeZ (o : SceneObject) : ℚ := (o.posZ + o.geomMaxZ) - (o.posZ + o.geomMinZ)

/-- getSlidingAmount (src/main.js:450-457): doorWidth = Math.max(size.x, size.z);
return doorWidth * 0.95. -/
def getSlidingAmount (o : SceneObject) : ℚ :=
  max (bboxSizeX o) (bboxSizeZ o) * (95 / 100)

/-- getDrawerPullAmount (src/main.js:545-550): Math.max(size.z, size.x) * 0.35. -/
def getDrawerPullAmount (o : SceneObject) : ℚ :=
  max (bboxSizeZ o) (bboxSizeX o) * (35 / 100)

/-- Final effect of one gsap position animation: it sets position.x (true) or
position.z (false) to the given absolute target. -/
def applyMove (o : SceneObject) (m : Bool × ℚ) : SceneObject :=
  if m.1 then { o with posX := m.2 } else { o with posZ := m.2 }

/-- Effect of a whole sequence of position animations. -/
def applyMoves (o : SceneObject) (ms : List (Bool × ℚ)) : SceneObject :=
  ms.foldl applyMove o

/-- Door slide direction (src/main.js:431-434): index 0 and 1 slide to -X,
every other index to +X. -/
def doorDirection (index : ℕ) : ℚ :=
  if index = 0 then -1 else if index = 1 then -1 else 1

/-- Door target X of proceedToggleDoor (src/main.js:436):
targetX = isOpen ? originalX : originalX + slideAmount * direction. -/
def proceedToggleDoorTarget (originalX slideAmount : ℚ) (index : ℕ) (isOpen : Bool) : ℚ :=
  if isOpen then originalX else originalX + slideAmount * doorDirection index

/-- isTopDrawer (src/main.js:506): drawer indices 0 and 1. -/
def isTopDrawer (index : ℕ) : Bool := index == 0 || index == 1

/-- Drawer target coordinate along its motion axis in proceedToggleDrawer
(src/main.js:508-541): top drawers animate position.x to
(isOpen ? originalX : originalX - pullAmount); all other drawers animate
position.z to (isOpen ? originalZ : originalZ + pullAmount). -/
def proceedToggleDrawerTarget (index : ℕ) (originalX originalZ pullAmount : ℚ)
    (isOpen : Bool) : ℚ :=
  if isTopDrawer index then
    (if isOpen then originalX else originalX - pullAmount)
  else
    (if isOpen then originalZ else originalZ + pullAmount)

/-- One toggle of a door as a map on (open state, coordinate along X):
the state flips at the animation end and the position ends at the absolute
target computed from the state captured at the call. -/
def doorToggleStep (originalX slideAmount : ℚ) (index : ℕ)
    (st : Bool × ℚ) : Bool × ℚ :=
  (!st.1, proceedToggleDoorTarget originalX slideAmount index st.1)

/-- One toggle of a drawer as a map on (open state, coordinate along its
motion axis). -/
def drawerToggleStep (index : ℕ) (originalX originalZ pullAmount : ℚ)
    (st : Bool × ℚ) : Bool × ℚ :=
  (!st.1, proceedToggleDrawerTarget index originalX originalZ pullAmount st.1)

/-- The drawer's original offset along its own motion axis, as recorded at
registration (drawerOriginalX for top drawers, drawerOriginalZ otherwise). -/
def drawerOriginalOffset (index : ℕ) (originalX originalZ : ℚ) : ℚ :=
  if isTopDrawer index then originalX else originalZ

/-! ## Panel discovery (load callback, src/main.js:205-334)

`model.traverse` visits the scene graph in preorder; for every mesh node whose
parent group's name matches one of the hardcoded structural names, the parent
group is registered once, with membership tracked in a Set of parent NAMES
(`foundDoorParents` / `foundDrawerParents`). -/

/-- A node of the loaded scene graph: a name, whether it is a mesh, and its
children in order. -/
inductive SNode : Type where
  | mk (name : String) (isMesh : Bool) (children : List SNode)

def SNode.nodeName : SNode → String
  | .mk n _ _ => n

def SNode.nodeIsMesh : SNode → Bool
  | .mk _ m _ => m

def SNode.nodeChildren : SNode → List SNode
  | .mk _ _ cs => cs

/-- doorNames (src/main.js:230). -/
def doorNames : List String := ["Box2449", "Box2448", "Box2442"]

/-- drawerNames (src/main.js:248-251). -/
def drawerNames : List String :=
  ["Plane093", "Box66787356", "Box66787348", "Rectangle010", "Box66787350",
   "Rectangle012"]

/-- Accumulated registration data built by the traversal callback: the two
name Sets and the doorData / drawerData lists; each data entry records the
registered parent group's name and the index assigned from the name table. -/
structure DiscoveryAcc where
  foundDoorParents : List String
  doorData : List (String × ℕ)
  foundDrawerParents : List String
  drawerData : List (String × ℕ)
deriving DecidableEq

def emptyAcc : DiscoveryAcc := ⟨[], [], [], []⟩

/-- One invocation of the traverse callback (src/main.js:217-267) on a node
with the given parent name: only meshes are processed; a door whose parent
name matches `doorNames` and is not yet in `foundDoorParents` is registered,
and likewise for drawers. -/
def discoverStep (acc : DiscoveryAcc) (parentName : String) (isMesh : Bool) :
    DiscoveryAcc :=
  if isMesh then
    let acc1 :=
      if doorNames.contains parentName && !(acc.foundDoorParents.contains parentName) then
        { acc with
          doorData := acc.doorData ++ [(parentName, doorNames.indexOf parentName)],
          foundDoorParents := acc.foundDoorParents ++ [parentName] }
      else acc
    if drawerNames.contains parentName && !(acc1.foundDrawerParents.contains parentName) then
      { acc1 with
        drawerData := acc1.drawerData ++ [(parentName, drawerNames.indexOf parentName)],
        foundDrawerParents := acc1.foundDrawerParents ++ [parentName] }
    else acc1
  else acc

/-- The preorder visit order of `Object3D.traverse`: the node itself, then the
children left to right, each paired with its parent's name (the root's parent
name is the empty string, matching `child.parent?.name || ''` at the root). -/
def preorderFrom (parentName : String) : SNode → List (String × Bool)
  | .mk n m cs => (parentName, m) :: preorderChildren n cs
where
  preorderChildren (parentName : String) : List SNode → List (String × Bool)
    | [] => []
    | c :: cs => preorderFrom parentName c ++ preorderChildren parentName cs

/-- The whole discovery pass: fold the traverse callback over the preorder
visit sequence starting from empty registries. -/
def discover (root : SNode) : DiscoveryAcc :=
  (preorderFrom "" root).foldl (fun acc pm => discoverStep acc pm.1 pm.2) emptyAcc

/-- Number of distinct parent nodes in the scene graph that carry the given
name and have at least one mesh child: the per-parent-identity panel count the
claim predicts for that structural name. -/
def countParentsNamed (n : String) : SNode → ℕ
  | .mk nm _ cs =>
      (if nm = n && cs.any (fun c => c.nodeIsMesh) then 1 else 0) +
        countParentsList n cs
where
  countParentsList (n : String) : List SNode → ℕ
    | [] => 0
    | c :: cs => countParentsNamed n c + countParentsList n cs

/-! ## Discrete-event semantics of the toggle orchestration

The page is single-threaded and event-loop driven: `setTimeout` continuations
and gsap `onComplete` callbacks fire at fixed future times. We model them as a
queue of timed events, processed in time order with FIFO tie-breaking (an
event scheduled earlier at the same timestamp runs first). State booleans
(`doorStates` / `drawerStates`) flip exactly in the `onComplete` of the
corresponding animation, as in the source. Times are in milliseconds:
door animation 1200 (gsap duration 1.2), drawer animation 800 (0.8),
the drawer-close-before-door setTimeout 800, and the open-door-first
setTimeout 900. -/

/-- Pending timed events: the two setTimeout continuations and the two gsap
onComplete callbacks (carrying the state value they will install). -/
inductive Ev : Type where
  | proceedDoor (index : ℕ) (isOpen : Bool)
  | proceedDrawer (index : ℕ) (isOpen : Bool)
  | doorAnimEnd (index : ℕ) (newState : Bool)
  | drawerAnimEnd (index : ℕ) (newState : Bool)
deriving DecidableEq

/-- Observable trace entries. A `doorStart index isOpen` marks the gsap call on
that door's position (target `proceedToggleDoorTarget _ _ index isOpen`); a
`doorEnd index s` marks its completion — the instant the position reaches the
target and the stored open state becomes `s`. Likewise for drawers. -/
inductive Tr : Type where
  | doorStart (index : ℕ) (isOpen : Bool)
  | doorEnd (index : ℕ) (newState : Bool)
  | drawerStart (index : ℕ) (isOpen : Bool)
  | drawerEnd (index : ℕ) (newState : Bool)
deriving DecidableEq

/-- Simulation state: current time, the doorStates / drawerStates maps (by
panel index; the model has 3 door groups and 6 drawer groups), the pending
event queue sorted by time, and the chronological trace. -/
structure Sim : Type where
  time : ℕ
  doorOpen : List Bool
  drawerOpen : List Bool
  queue : List (ℕ × Ev)
  trace : List (ℕ × Tr)
deriving DecidableEq

/-- Insert an event keeping the queue sorted by time; among equal timestamps
the earlier-scheduled event stays first (FIFO). -/
def qinsert (t : ℕ) (e : Ev) : List (ℕ × Ev) → List (ℕ × Ev)
  | [] => [(t, e)]
  | q :: rest => if t < q.1 then (t, e) :: q :: rest else q :: qinsert t e rest

/-- Schedule an event `delay` milliseconds from now. -/
def sched (s : Sim) (delay : ℕ) (e : Ev) : Sim :=
  { s with queue := qinsert (s.time + delay) e s.queue }

/-- Record a trace entry at the current time. -/
def emitTr (s : Sim) (tr : Tr) : Sim :=
  { s with trace := s.trace ++ [(s.time, tr)] }

/-- drawerToDoorMap (src/main.js:383-386): drawer 0 is behind door 0, drawers
1-5 behind door 1. -/
def drawerToDoorMap (drawerIndex : ℕ) : Option ℕ :=
  if drawerIndex = 0 then some 0
  else if drawerIndex ≤ 5 then some 1
  else none

/-- proceedToggleDoor (src/main.js:423-447): start the gsap animation on the
door's position (1.2 s) whose onComplete sets the stored state to `!isOpen`. -/
def proceedToggleDoorEv (index : ℕ) (isOpen : Bool) (s : Sim) : Sim :=
  sched (emitTr s (Tr.doorStart index isOpen)) 1200 (Ev.doorAnimEnd index (!isOpen))

/-- proceedToggleDrawer (src/main.js:500-542): start the gsap animation on the
drawer's position (0.8 s) whose onComplete sets the stored state to `!isOpen`. -/
def proceedToggleDrawerEv (index : ℕ) (isOpen : Bool) (s : Sim) : Sim :=
  sched (emitTr s (Tr.drawerStart index isOpen)) 800 (Ev.drawerAnimEnd index (!isOpen))

/-- The dependent open drawers collected in toggleDoor (src/main.js:397-406):
Object.keys iterates the map keys "0".."5" in order; a drawer is collected when
it maps to this door and its current state is open. -/
def dependentDrawers (s : Sim) (index : ℕ) : List ℕ :=
  (List.range 6).filter
    (fun dIdx => drawerToDoorMap dIdx == some index && s.drawerOpen.getD dIdx false)

/-- toggleDrawer specialized to forceClose = true, the only form toggleDoor
ever invokes: with the force flag the `!isOpen && !forceClose` guard is
necessarily false, so the call is the missing-drawer check followed directly
by proceedToggleDrawer. The general `toggleDrawer` below is proved to agree
with this at forceClose = true (`toggleDrawer_forced`), which lets the
mutually recursive source pair be stratified. -/
def toggleDrawerForced (index : ℕ) (s : Sim) : Sim :=
  if 6 ≤ index then s
  else proceedToggleDrawerEv index (s.drawerOpen.getD index false) s

/-- The `dependentDrawers.forEach(dIdx => toggleDrawer(dIdx, true))` loop of
toggleDoor (src/main.js:411). -/
def closeDrawersForce (deps : List ℕ) (s : Sim) : Sim :=
  deps.foldl (fun acc d => toggleDrawerForced d acc) s

/-- toggleDoor (src/main.js:389-420). A missing door is a no-op. If the door
is open and has dependent open drawers, those are first force-closed
synchronously (`toggleDrawer(dIdx, true)`), and the actual door toggle is
deferred by `setTimeout(.., 800)`; otherwise the door toggle proceeds
immediately. -/
def toggleDoor (index : ℕ) (s : Sim) : Sim :=
  if 3 ≤ index then s
  else
    let isOpen := s.doorOpen.getD index false
    if isOpen then
      let deps := dependentDrawers s index
      if deps.isEmpty then proceedToggleDoorEv index isOpen s
      else
        let s2 := closeDrawersForce deps s
        sched s2 800 (Ev.proceedDoor index isOpen)
    else proceedToggleDoorEv index isOpen s

/-- toggleDrawer (src/main.js:472-497). A missing drawer is a no-op. When the
drawer is closed and the toggle is not forced, the controlling door is looked
up: if that door is closed, `toggleDoor` is invoked on it synchronously and
the drawer's own toggle is deferred by `setTimeout(.., 900)` (capturing the
current `isOpen`); in every other case the drawer toggle proceeds
immediately. -/
def toggleDrawer (index : ℕ) (forceClose : Bool) (s : Sim) : Sim :=
  if 6 ≤ index then s
  else
    let isOpen := s.drawerOpen.getD index false
    if (!isOpen && !forceClose) = true then
      match drawerToDoorMap index with
      | some dependentDoorIndex =>
          let isDoorOpen := s.doorOpen.getD dependentDoorIndex false
          if isDoorOpen then proceedToggleDrawerEv index isOpen s
          else
            let s2 := toggleDoor dependentDoorIndex s
            sched s2 900 (Ev.proceedDrawer index isOpen)
      | none => proceedToggleDrawerEv index isOpen s
    else proceedToggleDrawerEv index isOpen s


/-- Dispatch a due event. -/
def handleEv (e : Ev) (s : Sim) : Sim :=
  match e with
  | Ev.proceedDoor i isOpen => proceedToggleDoorEv i isOpen s
  | Ev.proceedDrawer i isOpen => proceedToggleDrawerEv i isOpen s
  | Ev.doorAnimEnd i st =>
      emitTr { s with doorOpen := s.doorOpen.set i st } (Tr.doorEnd i st)
  | Ev.drawerAnimEnd i st =>
      emitTr { s with drawerOpen := s.drawerOpen.set i st } (Tr.drawerEnd i st)

/-- Run the event loop until the queue is empty (fuel-bounded; the fuel is
ample for every scenario considered, and the theorems check quiescence where
it matters). -/
def runQueue : ℕ → Sim → Sim
  | 0, s => s
  | fuel + 1, s =>
      match s.queue with
      | [] => s
      | (t, e) :: rest => runQueue fuel (handleEv e { s with time := t, queue := rest })

/-- Initial state at time 0 with the given stored open states, an empty queue
and an empty trace. -/
def mkSim (ds ws : List Bool) : Sim :=
  { time := 0, doorOpen := ds, drawerOpen := ws, queue := [], trace := [] }

/-- toggleDoor invoked from quiescence, run to completion. -/
def runToggleDoor (index : ℕ) (ds ws : List Bool) : Sim :=
  runQueue 100 (toggleDoor index (mkSim ds ws))

/-- toggleDrawer invoked from quiescence, run to completion. -/
def runToggleDrawer (index : ℕ) (forceClose : Bool) (ds ws : List Bool) : Sim :=
  runQueue 100 (toggleDrawer index forceClose (mkSim ds ws))

/-- toggleAllDoors (src/main.js:460-469): a snapshot decides whether all doors
are closed; each door is toggled when all were closed or it is currently
open. -/
def toggleAllDoors (s : Sim) : Sim :=
  let allClosed := s.doorOpen.all (fun st => !st)
  (List.range 3).foldl
    (fun acc index =>
      let currentState := acc.doorOpen.getD index false
      if allClosed || currentState then toggleDoor index acc else acc) s

/-- toggleAllDrawers (src/main.js:553-562). -/
def toggleAllDrawers (s : Sim) : Sim :=
  let allClosed := s.drawerOpen.all (fun st => !st)
  (List.range 6).foldl
    (fun acc index =>
      let currentState := acc.drawerOpen.getD index false
      if allClosed || currentState then toggleDrawer index false acc else acc) s

/-- toggleAllDoors invoked from quiescence, run to completion. -/
def runToggleAllDoors (ds ws : List Bool) : Sim :=
  runQueue 200 (toggleAllDoors (mkSim ds ws))

/-- toggleAllDrawers invoked from quiescence, run to completion. -/
def runToggleAllDrawers (ds ws : List Bool) : Sim :=
  runQueue 200 (toggleAllDrawers (mkSim ds ws))

/-- Time of the first occurrence of a trace entry. -/
def firstTimeOf (tr : List (ℕ × Tr)) (e : Tr) : Option ℕ :=
  ((tr.filter (fun p => p.2 == e)).head?).map Prod.fst

/-- Strict order on optional times: both present and the first strictly
earlier. -/
def optLt (a b : Option ℕ) : Bool :=
  match a, b with
  | some x, some y => x < y
  | _, _ => false

/-- Does the trace mention this door at all (animation started or completed)? -/
def mentionsDoor (i : ℕ) : Tr → Bool
  | Tr.doorStart j _ => j == i
  | Tr.doorEnd j _ => j == i
  | _ => false

/-- Does the trace mention this drawer at all? A drawer whose index is never
mentioned had no animation, hence kept both its state and its position. -/
def mentionsDrawer (i : ℕ) : Tr → Bool
  | Tr.drawerStart j _ => j == i
  | Tr.drawerEnd j _ => j == i
  | _ => false

/-- All length-n lists of booleans: the state space of a bank of n panels. -/
def boolLists : ℕ → List (List Bool)
  | 0 => [[]]
  | n + 1 => (boolLists n).flatMap (fun l => [false :: l, true :: l])

/-- The trace entry concerns no door outside the mask: every door animation
event is for a door whose mask bit is set (non-door events pass). A door whose
mask bit is clear and for which a whole trace satisfies this had no animation:
its stored state and its position are untouched. -/
def doorEventsFromMask (mask : List Bool) : Tr → Bool
  | Tr.doorStart j _ => mask.getD j false
  | Tr.doorEnd j _ => mask.getD j false
  | _ => true

/-- The trace entry concerns no drawer outside the mask (non-drawer events
pass). -/
def drawerEventsFromMask (mask : List Bool) : Tr → Bool
  | Tr.drawerStart j _ => mask.getD j false
  | Tr.drawerEnd j _ => mask.getD j false
  | _ => true

/-! ## Pointer interaction (onMouseMove / onClick, src/main.js:582-646)

Scene objects are identified by numbers with a parent map. A pointer position
is abstracted by the list of scene objects the ray meets, sorted near to far;
`raycaster.intersectObjects(targets, true)` restricts that list to objects
lying in the subtrees of the target set, which for a hit list `hits` is
`hits.filter (underAny targets parentOf)`. -/

/-- The ancestor-or-self walk of onMouseMove/onClick:
`while (mesh && !panels.includes(mesh)) mesh = mesh.parent` — returns the first
ancestor-or-self that is a registered panel group, if any (fuel bounds the
parent-chain length; 10 exceeds the model's depth). -/
def findPanelGroup (panels : List ℕ) (parentOf : ℕ → Option ℕ) :
    ℕ → ℕ → Option ℕ
  | 0, _ => none
  | fuel + 1, obj =>
      if panels.contains obj then some obj
      else
        match parentOf obj with
        | some p => findPanelGroup panels parentOf fuel p
        | none => none

/-- Is the object inside the subtree of some member of the panel set — i.e.
would `intersectObjects(panels, true)` report a hit on it? -/
def underAny (panels : List ℕ) (parentOf : ℕ → Option ℕ) (obj : ℕ) : Bool :=
  (findPanelGroup panels parentOf 10 obj).isSome

/-- The registered cabinet scene used by the pointer handlers: door groups
1, 2, 3 (indices 0-2) with mesh children 11, 12, 13, and drawer groups 21-26
(indices 0-5) with mesh children 31-36, all under the model root 0. -/
def parentOfCabinet : ℕ → Option ℕ
  | 1 => some 0
  | 2 => some 0
  | 3 => some 0
  | 11 => some 1
  | 12 => some 2
  | 13 => some 3
  | 21 => some 0
  | 22 => some 0
  | 23 => some 0
  | 24 => some 0
  | 25 => some 0
  | 26 => some 0
  | 31 => some 21
  | 32 => some 22
  | 33 => some 23
  | 34 => some 24
  | 35 => some 25
  | 36 => some 26
  | _ => none

/-- The doors array after load: the three registered door groups in order. -/
def cabinetDoors : List ℕ := [1, 2, 3]

/-- The drawers array after load: the six registered drawer groups in order. -/
def cabinetDrawers : List ℕ := [21, 22, 23, 24, 25, 26]

/-- Result of a mousemove: whether the pointer cursor class is set, and the
tooltip content — `some (index, isOpen)` models the visible prompt
"Kapak (index+1) - click to close/open" (the boolean picks which of the two
texts is shown), `none` models a hidden tooltip. -/
structure HoverResult where
  pointer : Bool
  tooltip : Option (ℕ × Bool)
deriving DecidableEq

/-- onMouseMove (src/main.js:582-611): the ray is cast against the DOOR set
only; on a hit the hit object is walked up to its owning door group and the
tooltip shows that door's index and open state; if the walk fails the tooltip
keeps its previous content; with no door hit the cursor and tooltip are
cleared. -/
def onMouseMove (doorStates : List Bool) (prevTooltip : Option (ℕ × Bool))
    (hits : List ℕ) : HoverResult :=
  match hits.filter (underAny cabinetDoors parentOfCabinet) with
  | [] => { pointer := false, tooltip := none }
  | o :: _ =>
      match findPanelGroup cabinetDoors parentOfCabinet 10 o with
      | some g =>
          { pointer := true,
            tooltip := some (cabinetDoors.indexOf g,
              doorStates.getD (cabinetDoors.indexOf g) false) }
      | none => { pointer := true, tooltip := prevTooltip }

/-- The drawer half of onClick (src/main.js:634-645). -/
def onClickDrawerPart (hits : List ℕ) : Option (ℕ ⊕ ℕ) :=
  match hits.filter (underAny cabinetDrawers parentOfCabinet) with
  | [] => none
  | o :: _ =>
      match findPanelGroup cabinetDrawers parentOfCabinet 10 o with
      | some g => some (Sum.inr (cabinetDrawers.indexOf g))
      | none => none

/-- onClick (src/main.js:614-646): doors are tested first; a resolved door hit
toggles that door and returns; otherwise the drawers are tested. The result
records which toggle was invoked: `inl doorIndex` or `inr drawerIndex`. -/
def onClick (hits : List ℕ) : Option (ℕ ⊕ ℕ) :=
  match hits.filter (underAny cabinetDoors parentOfCabinet) with
  | [] => onClickDrawerPart hits
  | o :: _ =>
      match findPanelGroup cabinetDoors parentOfCabinet 10 o with
      | some g => some (Sum.inl (cabinetDoors.indexOf g))
      | none => onClickDrawerPart hits

/-! ## Auxiliary definitions for the statements -/

/-- Invariant of the discovery accumulator: each found-parents Set lists
exactly the names of the registered panels, without duplicates, and every
found name comes from the corresponding structural name table. -/
def DiscoveryInv (acc : DiscoveryAcc) : Prop :=
  acc.foundDoorParents = acc.doorData.map Prod.fst ∧
    acc.foundDoorParents.Nodup ∧
    (∀ p ∈ acc.foundDoorParents, p ∈ doorNames) ∧
    acc.foundDrawerParents = acc.drawerData.map Prod.fst ∧
    acc.foundDrawerParents.Nodup ∧
    (∀ p ∈ acc.foundDrawerParents, p ∈ drawerNames)

/-- A scene graph in which the structural name "Box2449" appears on two
distinct parent groups (distinguished by their mesh children), each with one
mesh child. -/
def twoParentsTree : SNode :=
  .mk "Scene" false
    [.mk "Box2449" false [.mk "mesh1" true []],
     .mk "Box2449" false [.mk "mesh2" true []]]

/-- A drawer-group object whose geometry extent is 1 along Z and 0 along X,
so its pull amount is 0.35. -/
def sampleDrawerObject : SceneObject :=
  { posX := 0, posZ := 0, geomMinX := 0, geomMaxX := 0, geomMinZ := 0, geomMaxZ := 1 }

/-! ## Theorems -/

/-- The stratification of the mutually recursive source pair is faithful: at
forceClose = true the general toggleDrawer is exactly toggleDrawerForced (the
form toggleDoor invokes). -/
lemma toggleDrawer_forced (index : ℕ) (s : Sim) :
    toggleDrawer index true s = toggleDrawerForced index s := by
  simp [toggleDrawer, toggleDrawerForced]

/-- C1, counterexample. The claim says every drawer's open target equals its
original offset PLUS its pull amount. For top drawer 0 (a drawer with positive
pull amount 0.35, measured from `sampleDrawerObject`), the open target computed
by proceedToggleDrawer is originalX - pullAmount = -0.35, not
originalOffset + pullAmount = 0.35: top drawers slide in the negative X
direction (src/main.js:516, `startX - pullAmount`). -/
theorem drawer_open_target_not_always_positive :
    getDrawerPullAmount sampleDrawerObject = 35 / 100 ∧
      proceedToggleDrawerTarget 0 0 0 (getDrawerPullAmount sampleDrawerObject) false
        ≠ 0 + getDrawerPullAmount sampleDrawerObject := by
  constructor
  · norm_num [getDrawerPullAmount, bboxSizeX, bboxSizeZ, sampleDrawerObject]
  · norm_num [getDrawerPullAmount, bboxSizeX, bboxSizeZ, sampleDrawerObject,
      proceedToggleDrawerTarget, isTopDrawer]

/-- C1, amended. Every drawer's open transition targets the axis determined by
its role, but the direction depends on the role as well: top drawers
(indices 0 and 1) slide along X in the NEGATIVE direction — their open target
is the original X offset minus the pull amount — while every other drawer
slides along Z in the positive direction, its open target being the original Z
offset plus the pull amount. -/
theorem drawer_open_target_axis_and_sign :
    ∀ index : ℕ, index < 6 →
      ((index = 0 ∨ index = 1) →
        ∀ originalX originalZ pullAmount : ℚ,
          proceedToggleDrawerTarget index originalX originalZ pullAmount false
            = originalX - pullAmount) ∧
      (index ≠ 0 → index ≠ 1 →
        ∀ originalX originalZ pullAmount : ℚ,
          proceedToggleDrawerTarget index originalX originalZ pullAmount false
            = originalZ + pullAmount) := by
  intro index _
  constructor
  · rintro (rfl | rfl) originalX originalZ pullAmount <;>
      simp [proceedToggleDrawerTarget, isTopDrawer]
  · intro h0 h1 originalX originalZ pullAmount
    have ht : isTopDrawer index = false := by
      simp [isTopDrawer]
      omega
    simp [proceedToggleDrawerTarget, ht]

/-- C1 witness: instances of the amended statement for top drawer 0 and
bottom drawer 2 at concrete offsets 1, 2 and pull amount 3. -/
theorem drawer_open_target_axis_and_sign_witness :
    proceedToggleDrawerTarget 0 1 2 3 false = 1 - 3 ∧
      proceedToggleDrawerTarget 2 1 2 3 false = 2 + 3 :=
  ⟨(drawer_open_target_axis_and_sign 0 (by omega)).1 (Or.inl rfl) 1 2 3,
   (drawer_open_target_axis_and_sign 2 (by omega)).2 (by omega) (by omega) 1 2 3⟩

/-- C5. Open/close targets are absolute, not incremental: a door toggle closes
to exactly originalX and a drawer toggle closes to exactly its original offset
along its motion axis, so after any number of open-then-close cycles
(2n toggles starting closed at the original offset) the position coordinate is
exactly the original offset again — no drift. -/
theorem panel_round_trip_no_drift
    (originalX originalZ slideAmount pullAmount : ℚ)
    (doorIndex drawerIndex n : ℕ) :
    ((doorToggleStep originalX slideAmount doorIndex)^[2 * n]
        (false, originalX)).2 = originalX ∧
      ((drawerToggleStep drawerIndex originalX originalZ pullAmount)^[2 * n]
          (false, drawerOriginalOffset drawerIndex originalX originalZ)).2
        = drawerOriginalOffset drawerIndex originalX originalZ := by
  constructor
  · have hfix : (doorToggleStep originalX slideAmount doorIndex)^[2]
        (false, originalX) = (false, originalX) := by
      simp [Function.iterate_succ_apply, doorToggleStep, proceedToggleDoorTarget]
    have : (doorToggleStep originalX slideAmount doorIndex)^[2 * n]
        (false, originalX) = (false, originalX) := by
      rw [Function.iterate_mul]
      exact Function.iterate_fixed hfix n
    rw [this]
  · have hfix : (drawerToggleStep drawerIndex originalX originalZ pullAmount)^[2]
        (false, drawerOriginalOffset drawerIndex originalX originalZ)
        = (false, drawerOriginalOffset drawerIndex originalX originalZ) := by
      by_cases ht : isTopDrawer drawerIndex <;>
        simp [Function.iterate_succ_apply, drawerToggleStep,
          proceedToggleDrawerTarget, drawerOriginalOffset, ht]
    have : (drawerToggleStep drawerIndex originalX originalZ pullAmount)^[2 * n]
        (false, drawerOriginalOffset drawerIndex originalX originalZ)
        = (false, drawerOriginalOffset drawerIndex originalX originalZ) := by
      rw [Function.iterate_mul]
      exact Function.iterate_fixed hfix n
    rw [this]

lemma bboxSize_applyMove (o : SceneObject) (m : Bool × ℚ) :
    bboxSizeX (applyMove o m) = bboxSizeX o ∧
      bboxSizeZ (applyMove o m) = bboxSizeZ o := by
  obtain ⟨a, q⟩ := m
  cases a <;> simp [applyMove, bboxSizeX, bboxSizeZ]

lemma bboxSize_applyMoves (ms : List (Bool × ℚ)) :
    ∀ o : SceneObject,
      bboxSizeX (applyMoves o ms) = bboxSizeX o ∧
        bboxSizeZ (applyMoves o ms) = bboxSizeZ o := by
  induction ms with
  | nil => intro o; simp [applyMoves]
  | cons m rest ih =>
      intro o
      have hstep := bboxSize_applyMove o m
      have hrest := ih (applyMove o m)
      simpa [applyMoves, hstep.1, hstep.2] using hrest

/-- C7. The travel distance is a function of the object's bounding-box extents
only, and those extents are invariant under every position animation the
viewer performs (gsap only sets position.x / position.z), so every toggle uses
the very same travel value that a measurement at discovery time yields: extent
along the dominant axis times 0.95 for doors and 0.35 for drawers. -/
theorem travel_distance_constant (o : SceneObject) (ms : List (Bool × ℚ)) :
    getSlidingAmount (applyMoves o ms) = getSlidingAmount o ∧
      getDrawerPullAmount (applyMoves o ms) = getDrawerPullAmount o ∧
      getSlidingAmount o = max (bboxSizeX o) (bboxSizeZ o) * (95 / 100) ∧
      getDrawerPullAmount o = max (bboxSizeZ o) (bboxSizeX o) * (35 / 100) := by
  have h := bboxSize_applyMoves ms o
  refine ⟨?_, ?_, rfl, rfl⟩
  · rw [getSlidingAmount, getSlidingAmount, h.1, h.2]
  · rw [getDrawerPullAmount, getDrawerPullAmount, h.1, h.2]

/-- C4, counterexample. In `twoParentsTree` the structural name "Box2449"
appears on two distinct parent groups, each with a mesh child, so
per-parent-identity deduplication would register two Panels; the load
traversal registers only one, because `foundDoorParents` is a Set of parent
NAMES (src/main.js:236-241): the second distinct parent with the same name is
skipped. -/
theorem discovery_dedup_counterexample :
    (discover twoParentsTree).doorData.length = 1 ∧
      countParentsNamed "Box2449" twoParentsTree = 2 := by
  constructor
  · rfl
  · rfl

lemma discoverStep_inv (acc : DiscoveryAcc) (parentName : String)
    (isMesh : Bool) (h : DiscoveryInv acc) :
    DiscoveryInv (discoverStep acc parentName isMesh) := by
  obtain ⟨h1, h2, h3, h4, h5, h6⟩ := h
  unfold discoverStep DiscoveryInv
  dsimp only
  split
  · split
    · next hdoor =>
        simp only [Bool.and_eq_true, Bool.not_eq_true'] at hdoor
        obtain ⟨hmem, hnew⟩ := hdoor
        have hmem' : parentName ∈ doorNames := by
          simpa using hmem
        have hnew' : parentName ∉ acc.foundDoorParents := by
          simpa using hnew
        split
        · next hdrawer =>
            simp only [Bool.and_eq_true, Bool.not_eq_true'] at hdrawer
            obtain ⟨wmem, wnew⟩ := hdrawer
            have wmem' : parentName ∈ drawerNames := by
              simpa using wmem
            have wnew' : parentName ∉ acc.foundDrawerParents := by
              simpa using wnew
            refine ⟨by simp [h1], ?_, ?_, by simp [h4], ?_, ?_⟩
            · simp [List.nodup_append, h2, hnew']
            · intro p hp
              rcases List.mem_append.mp hp with hp | hp
              · exact h3 p hp
              · simp at hp; subst hp; exact hmem'
            · simp [List.nodup_append, h5, wnew']
            · intro p hp
              rcases List.mem_append.mp hp with hp | hp
              · exact h6 p hp
              · simp at hp; subst hp; exact wmem'
        · refine ⟨by simp [h1], ?_, ?_, h4, h5, h6⟩
          · simp [List.nodup_append, h2, hnew']
          · intro p hp
            rcases List.mem_append.mp hp with hp | hp
            · exact h3 p hp
            · simp at hp; subst hp; exact hmem'
    · split
      · next hdrawer =>
          simp only [Bool.and_eq_true, Bool.not_eq_true'] at hdrawer
          obtain ⟨wmem, wnew⟩ := hdrawer
          have wmem' : parentName ∈ drawerNames := by
            simpa using wmem
          have wnew' : parentName ∉ acc.foundDrawerParents := by
            simpa using wnew
          refine ⟨h1, h2, h3, by simp [h4], ?_, ?_⟩
          · simp [List.nodup_append, h5, wnew']
          · intro p hp
            rcases List.mem_append.mp hp with hp | hp
            · exact h6 p hp
            · simp at hp; subst hp; exact wmem'
      · exact ⟨h1, h2, h3, h4, h5, h6⟩
  · exact ⟨h1, h2, h3, h4, h5, h6⟩

lemma discover_foldl_inv (l : List (String × Bool)) :
    ∀ acc : DiscoveryAcc, DiscoveryInv acc →
      DiscoveryInv (l.foldl (fun acc pm => discoverStep acc pm.1 pm.2) acc) := by
  induction l with
  | nil => intro acc h; simpa using h
  | cons pm rest ih =>
      intro acc h
      simpa using ih (discoverStep acc pm.1 pm.2) (discoverStep_inv acc pm.1 pm.2 h)

/-- C4, amended. Discovery deduplicates by parent NAME, not by parent
identity: over any scene graph, at most one Panel is ever registered per
structural name — the registered door entries carry pairwise-distinct names
drawn from the door name table, and likewise for drawers. (When a name sits on
several distinct parents, only the parent of the first mesh encountered in
traversal order is registered, as `discovery_dedup_counterexample` shows.) -/
theorem discovery_dedup_by_parent_name (root : SNode) :
    ((discover root).doorData.map Prod.fst).Nodup ∧
      ((discover root).drawerData.map Prod.fst).Nodup ∧
      (∀ p ∈ (discover root).doorData.map Prod.fst, p ∈ doorNames) ∧
      (∀ p ∈ (discover root).drawerData.map Prod.fst, p ∈ drawerNames) := by
  have hinit : DiscoveryInv emptyAcc := by
    refine ⟨rfl, ?_, ?_, rfl, ?_, ?_⟩ <;> simp [emptyAcc]
  have h := discover_foldl_inv (preorderFrom "" root) emptyAcc hinit
  obtain ⟨h1, h2, h3, h4, h5, h6⟩ := h
  refine ⟨?_, ?_, ?_, ?_⟩
  · rw [discover] at *; rw [← h1]; exact h2
  · rw [discover] at *; rw [← h4]; exact h5
  · rw [discover] at *; intro p hp; exact h3 p (h1 ▸ hp)
  · rw [discover] at *; intro p hp; exact h6 p (h4 ▸ hp)

/-- C4 witness: the Nodup and name-table facts of the amended theorem
instantiated at the concrete two-parent scene graph. -/
theorem discovery_dedup_by_parent_name_witness :
    ((discover twoParentsTree).doorData.map Prod.fst).Nodup ∧
      (∀ p ∈ (discover twoParentsTree).doorData.map Prod.fst, p ∈ doorNames) :=
  ⟨(discovery_dedup_by_parent_name twoParentsTree).1,
   (discovery_dedup_by_parent_name twoParentsTree).2.2.1⟩

/-- C8, counterexample. With only drawer 0's sub-mesh (object 31, owned by
registered drawer group 21) under the pointer, hover surfaces no prompt and
even clears it: onMouseMove raycasts against the DOOR list only
(src/main.js:587), so a Panel under the pointer that is a drawer gets no
index/prompt, contradicting the claim that hovering any Panel surfaces the
resolved Panel's prompt. -/
theorem hover_ignores_drawers_counterexample :
    onMouseMove [false, false, false] none [31]
        = { pointer := false, tooltip := none } ∧
      findPanelGroup cabinetDrawers parentOfCabinet 10 31 = some 21 ∧
      cabinetDrawers.indexOf 21 = 0 := by
  refine ⟨rfl, rfl, rfl⟩

/-- C8, amended. Hover hit-testing is performed against the doors only: when
no door sub-mesh is under the pointer the prompt is cleared (even if a drawer
is under it), and when a door sub-mesh is hit the nearest one is resolved by
walking up the ancestry to its owning registered door, whose index and
open/closed state the prompt surfaces. Click testing does use the full Panel
set with doors taking priority: a resolved door hit toggles that door,
otherwise the nearest drawer hit resolves to its owning drawer and toggles
it. -/
theorem pointer_interaction_amended
    (doorStates : List Bool) (prevTooltip : Option (ℕ × Bool))
    (hits : List ℕ) (o g : ℕ) :
    (hits.filter (underAny cabinetDoors parentOfCabinet) = [] →
        onMouseMove doorStates prevTooltip hits
            = { pointer := false, tooltip := none } ∧
          onClick hits = onClickDrawerPart hits) ∧
      ((hits.filter (underAny cabinetDoors parentOfCabinet)).head? = some o →
        findPanelGroup cabinetDoors parentOfCabinet 10 o = some g →
        onMouseMove doorStates prevTooltip hits
            = { pointer := true,
                tooltip := some (cabinetDoors.indexOf g,
                  doorStates.getD (cabinetDoors.indexOf g) false) } ∧
          onClick hits = some (Sum.inl (cabinetDoors.indexOf g))) ∧
      (hits.filter (underAny cabinetDoors parentOfCabinet) = [] →
        (hits.filter (underAny cabinetDrawers parentOfCabinet)).head? = some o →
        findPanelGroup cabinetDrawers parentOfCabinet 10 o = some g →
        onClick hits = some (Sum.inr (cabinetDrawers.indexOf g))) := by
  refine ⟨?_, ?_, ?_⟩
  · intro hF
    exact ⟨by simp [onMouseMove, hF], by simp [onClick, hF]⟩
  · intro hHead hFind
    cases hF : hits.filter (underAny cabinetDoors parentOfCabinet) with
    | nil => rw [hF] at hHead; simp at hHead
    | cons a t =>
        rw [hF] at hHead
        simp at hHead
        subst hHead
        exact ⟨by simp [onMouseMove, hF, hFind], by simp [onClick, hF, hFind]⟩
  · intro hDoorEmpty hHead hFind
    cases hF : hits.filter (underAny cabinetDrawers parentOfCabinet) with
    | nil => rw [hF] at hHead; simp at hHead
    | cons a t =>
        rw [hF] at hHead
        simp at hHead
        subst hHead
        simp [onClick, onClickDrawerPart, hDoorEmpty, hF, hFind]

/-- C8 witness: hovering door 1's sub-mesh (object 12) surfaces the prompt for
door index 1 in closed state; clicking it toggles door 1; clicking drawer 2's
sub-mesh (object 33) with no door under the pointer toggles drawer 2. -/
theorem pointer_interaction_amended_witness :
    onMouseMove [true, false, false] none [12]
        = { pointer := true, tooltip := some (1, false) } ∧
      onClick [12] = some (Sum.inl 1) ∧
      onClick [33] = some (Sum.inr 2) := by
  have h12 := pointer_interaction_amended [true, false, false] none [12] 12 2
  have h33 := pointer_interaction_amended [true, false, false] none [33] 33 23
  have a := h12.2.1 (by rfl) (by rfl)
  have b := h33.2.2 (by rfl) (by rfl) (by rfl)
  exact ⟨a.1, a.2, b⟩

/-- C2, counterexample. All panels closed, toggleDrawer(2): the controlling
door 1 is closed, so its opening is triggered first — but the drawer's own
animation starts at t = 900 ms (the hardcoded setTimeout), while the door
reaches Open (its 1.2 s animation completes and the state flips) only at
t = 1200 ms. The door's full open animation does NOT run to completion before
the drawer begins: the completion does not precede the drawer start
(optLt ... = false with both events present). -/
theorem drawer_starts_before_door_fully_open :
    firstTimeOf (runToggleDrawer 2 false [false, false, false]
        [false, false, false, false, false, false]).trace (Tr.drawerStart 2 false)
      = some 900 ∧
    firstTimeOf (runToggleDrawer 2 false [false, false, false]
        [false, false, false, false, false, false]).trace (Tr.doorEnd 1 true)
      = some 1200 ∧
    optLt (firstTimeOf (runToggleDrawer 2 false [false, false, false]
          [false, false, false, false, false, false]).trace (Tr.doorEnd 1 true))
        (firstTimeOf (runToggleDrawer 2 false [false, false, false]
          [false, false, false, false, false, false]).trace (Tr.drawerStart 2 false))
      = false := by
  decide

set_option maxHeartbeats 4000000 in
/-- C2, amended. Toggling a closed drawer whose controlling door is closed
first initiates that door's opening (the door's animation starts immediately,
at t = 0) and defers the drawer's own transition by a fixed 900 ms — which is
BEFORE the door's 1.2 s open animation completes at t = 1200: the drawer
begins strictly after the door's opening starts (0 < 900) but strictly before
the door reaches Open (900 < 1200); both panels end Open. -/
theorem drawer_toggle_opens_door_first_amended :
    ∀ ds ∈ boolLists 3, ∀ ws ∈ boolLists 6, ∀ i, i < 6 →
      ws.getD i false = false →
      ∀ dr, dr < 3 → drawerToDoorMap i = some dr →
      ds.getD dr false = false →
      ((firstTimeOf (runToggleDrawer i false ds ws).trace (Tr.doorStart dr false)
          == some 0) &&
       (firstTimeOf (runToggleDrawer i false ds ws).trace (Tr.drawerStart i false)
          == some 900) &&
       (firstTimeOf (runToggleDrawer i false ds ws).trace (Tr.doorEnd dr true)
          == some 1200) &&
       (runToggleDrawer i false ds ws).drawerOpen.getD i false &&
       (runToggleDrawer i false ds ws).doorOpen.getD dr false) = true := by
  decide

/-- C2 witness: the amended statement at drawer 2 (controlling door 1) from
the all-closed state. -/
theorem drawer_toggle_opens_door_first_amended_witness :
    ((firstTimeOf (runToggleDrawer 2 false [false, false, false]
          [false, false, false, false, false, false]).trace (Tr.doorStart 1 false)
        == some 0) &&
     (firstTimeOf (runToggleDrawer 2 false [false, false, false]
          [false, false, false, false, false, false]).trace (Tr.drawerStart 2 false)
        == some 900) &&
     (firstTimeOf (runToggleDrawer 2 false [false, false, false]
          [false, false, false, false, false, false]).trace (Tr.doorEnd 1 true)
        == some 1200) &&
     (runToggleDrawer 2 false [false, false, false]
        [false, false, false, false, false, false]).drawerOpen.getD 2 false &&
     (runToggleDrawer 2 false [false, false, false]
        [false, false, false, false, false, false]).doorOpen.getD 1 false) = true :=
  drawer_toggle_opens_door_first_amended
    [false, false, false] (by decide)
    [false, false, false, false, false, false] (by decide)
    2 (by decide) (by decide) 1 (by decide) (by decide) (by decide)

set_option maxHeartbeats 4000000 in
/-- C3. From any state in which door i is open, toggling it closes every
dependent open drawer first: each such drawer's close animation completes
(state flips to Closed) strictly before the door's close animation completes —
and the door's position reaches its closed target exactly at that completion
(the drawers end at t = 800, the door's close animation only starts then via
the 800 ms setTimeout and reaches its target at t = 2000). -/
theorem drawers_close_before_door_reaches_target :
    ∀ ds ∈ boolLists 3, ∀ ws ∈ boolLists 6, ∀ i, i < 3 →
      ds.getD i false = true →
      ∀ d, d < 6 → drawerToDoorMap d = some i → ws.getD d false = true →
        optLt (firstTimeOf (runToggleDoor i ds ws).trace (Tr.drawerEnd d false))
            (firstTimeOf (runToggleDoor i ds ws).trace (Tr.doorEnd i false))
          = true := by
  decide

/-- C3 witness: door 1 open with dependent drawers 1 and 3 open; drawer 3's
close completion precedes the door's reaching its closed target. -/
theorem drawers_close_before_door_reaches_target_witness :
    optLt (firstTimeOf (runToggleDoor 1 [false, true, false]
            [false, true, false, true, false, false]).trace (Tr.drawerEnd 3 false))
        (firstTimeOf (runToggleDoor 1 [false, true, false]
            [false, true, false, true, false, false]).trace (Tr.doorEnd 1 false))
      = true :=
  drawers_close_before_door_reaches_target
    [false, true, false] (by decide)
    [false, true, false, true, false, false] (by decide)
    1 (by decide) (by decide) 3 (by decide) (by decide) (by decide)

set_option maxHeartbeats 8000000 in
/-- C6. For each kind independently: from a state where every Panel of that
kind is closed, toggleAll of the kind eventually opens every Panel of the
kind; otherwise it closes every currently-open Panel of the kind and leaves
the already-closed ones untouched — the final states are all-closed and every
animation event of that kind in the whole run belongs to an initially-open
Panel of that kind (a Panel with no events keeps both its state and its
position). -/
theorem toggleAll_opens_all_or_closes_open :
    ∀ ds ∈ boolLists 3, ∀ ws ∈ boolLists 6,
      (ds.all (fun st => !st) = true →
        (runToggleAllDoors ds ws).doorOpen = [true, true, true]) ∧
      (ds.all (fun st => !st) = false →
        ((runToggleAllDoors ds ws).doorOpen == [false, false, false] &&
         (runToggleAllDoors ds ws).trace.all
           (fun p => doorEventsFromMask ds p.2)) = true) ∧
      (ws.all (fun st => !st) = true →
        (runToggleAllDrawers ds ws).drawerOpen
          = [true, true, true, true, true, true]) ∧
      (ws.all (fun st => !st) = false →
        ((runToggleAllDrawers ds ws).drawerOpen
            == [false, false, false, false, false, false] &&
         (runToggleAllDrawers ds ws).trace.all
           (fun p => drawerEventsFromMask ws p.2)) = true) := by
  decide

/-- C6 witness: from all-closed, toggleAllDoors opens all three doors; from a
mixed drawer state (drawers 1 and 3 open), toggleAllDrawers closes them and
emits no animation event for any initially-closed drawer. -/
theorem toggleAll_opens_all_or_closes_open_witness :
    (runToggleAllDoors [false, false, false]
        [false, false, false, false, false, false]).doorOpen
      = [true, true, true] ∧
    ((runToggleAllDrawers [false, true, false]
        [false, true, false, true, false, false]).drawerOpen
      == [false, false, false, false, false, false] &&
     (runToggleAllDrawers [false, true, false]
        [false, true, false, true, false, false]).trace.all
       (fun p => drawerEventsFromMask [false, true, false, true, false, false] p.2))
      = true :=
  ⟨(toggleAll_opens_all_or_closes_open
      [false, false, false] (by decide)
      [false, false, false, false, false, false] (by decide)).1 (by decide),
   ((toggleAll_opens_all_or_closes_open
      [false, true, false] (by decide)
      [false, true, false, true, false, false] (by decide)).2.2.2 (by decide))⟩

set_option maxHeartbeats 4000000 in
/-- C9. Calling toggleDrawer with forceClose = true on a CLOSED drawer opens
it: the force flag only skips the controlling-door precondition check — the
drawer's open animation starts immediately (t = 0) with no door ever touched,
and the drawer ends Open. The flag does not restrict the transition to
closing. -/
theorem force_flag_only_bypasses_door_check :
    ∀ ds ∈ boolLists 3, ∀ ws ∈ boolLists 6, ∀ i, i < 6 →
      ws.getD i false = false →
      (runToggleDrawer i true ds ws).drawerOpen.getD i false = true ∧
        firstTimeOf (runToggleDrawer i true ds ws).trace (Tr.drawerStart i false)
          = some 0 ∧
        (runToggleDrawer i true ds ws).trace.all
          (fun p => !mentionsDoor 0 p.2 && !mentionsDoor 1 p.2 && !mentionsDoor 2 p.2)
          = true := by
  decide

/-- C9 witness: force-toggling closed drawer 3 while its controlling door 1 is
closed opens the drawer immediately without touching any door. -/
theorem force_flag_only_bypasses_door_check_witness :
    (runToggleDrawer 3 true [false, false, false]
        [false, false, false, false, false, false]).drawerOpen.getD 3 false = true ∧
      firstTimeOf (runToggleDrawer 3 true [false, false, false]
          [false, false, false, false, false, false]).trace (Tr.drawerStart 3 false)
        = some 0 ∧
      (runToggleDrawer 3 true [false, false, false]
          [false, false, false, false, false, false]).trace.all
        (fun p => !mentionsDoor 0 p.2 && !mentionsDoor 1 p.2 && !mentionsDoor 2 p.2)
        = true :=
  force_flag_only_bypasses_door_check
    [false, false, false] (by decide)
    [false, false, false, false, false, false] (by decide)
    3 (by decide) (by decide)

set_option maxHeartbeats 8000000 in
/-- C10. Toggling an open door force-closes exactly its dependent open
drawers: each dependent open drawer ends Closed, while every other drawer —
dependent but currently closed, or mapped to a different door — keeps its
stored open state, and the trace contains no animation event for it at all
(so its position is also unchanged). -/
theorem door_close_touches_only_dependent_open_drawers :
    ∀ ds ∈ boolLists 3, ∀ ws ∈ boolLists 6, ∀ i, i < 3 →
      ds.getD i false = true →
      ∀ d, d < 6 →
        ((drawerToDoorMap d = some i ∧ ws.getD d false = true) →
          (runToggleDoor i ds ws).drawerOpen.getD d false = false) ∧
        (¬(drawerToDoorMap d = some i ∧ ws.getD d false = true) →
          (runToggleDoor i ds ws).drawerOpen.getD d false = ws.getD d false ∧
            (runToggleDoor i ds ws).trace.all (fun p => !mentionsDrawer d p.2)
              = true) := by
  decide

/-- C10 witness: closing door 1 while drawers 1 and 3 (dependent, open) and
drawer 0 (mapped to door 0, closed) are in a mixed state: drawer 3 ends
Closed; drawer 0 keeps its state and is never animated. -/
theorem door_close_touches_only_dependent_open_drawers_witness :
    (runToggleDoor 1 [false, true, false]
        [false, true, false, true, false, false]).drawerOpen.getD 3 false = false ∧
      ((runToggleDoor 1 [false, true, false]
          [false, true, false, true, false, false]).drawerOpen.getD 0 false
        = [false, true, false, true, false, false].getD 0 false ∧
       (runToggleDoor 1 [false, true, false]
          [false, true, false, true, false, false]).trace.all
         (fun p => !mentionsDrawer 0 p.2) = true) :=
  ⟨((door_close_touches_only_dependent_open_drawers
      [false, true, false] (by decide)
      [false, true, false, true, false, false] (by decide)
      1 (by decide) (by decide) 3 (by decide)).1 (by decide)),
   ((door_close_touches_only_dependent_open_drawers
      [false, true, false] (by decide)
      [false, true, false, true, false, false] (by decide)
      1 (by decide) (by decide) 0 (by decide)).2 (by decide))⟩

end FurnitureViewer
